import Mathlib

/-!
Verification of the adhub job-posting board (client-side filter and
interaction state machine).

The embedding models the code of `src/app/findwork/page.tsx` and
`src/components/JobPostingCard.tsx`:

* JS strings are `List Char`; `toLowerCase` is `Char.toLower` mapped over
  the list (the code only ever lower-cases ASCII); `includes` is a
  contiguous-substring check.
* The filter `useEffect` (page.tsx lines 180-208) becomes the pure
  function `applyFilters`.
* Dates are modelled at one-second resolution: a `deadline_date` is a day
  number, an instant is a count of seconds, and a `deadline_time` is an
  (hours, minutes) pair, matching the `Date`/`setHours` arithmetic of
  `isDeadlinePassed` in a single fixed (local) time zone.
-/

/-- A JS string, as a list of its characters. -/
abbrev Str := List Char

/-- Shorthand to write `Str` values from Lean string literals. -/
def str (x : String) : Str := x.toList

/-- JS `String.prototype.toLowerCase`, on the ASCII range the code exercises. -/
def toLowerStr (t : Str) : Str := t.map Char.toLower

/-- JS `haystack.includes(needle)`: `needle` occurs contiguously in `haystack`. -/
def strIncludes : Str → Str → Bool
  | [], needle => needle.isEmpty
  | h :: t, needle => needle.isPrefixOf (h :: t) || strIncludes t needle

/-- One job-posting record as flattened by the findwork page
(`JobPosting` interface, page.tsx lines 15-34). -/
structure JobPosting where
  id : Str
  title : Str
  description : Str
  has_deadline : Bool
  deadline_date : Option Nat
  deadline_time : Option (Nat × Nat)
  profile_id : Str
  username : Str
  city : Str
  country : Str
  user_id : Str
  first_name : Str
  last_name : Str
  user_type : Str
  slug : Str
  is_saved : Bool
deriving DecidableEq

/-- The three filter inputs of the filter `useEffect` on the findwork page:
`showOnlySaved`, `selectedCountry` (empty string means all countries) and
`searchQuery` (empty string means no query). -/
structure FilterState where
  showOnlySaved : Bool
  selectedCountry : Str
  searchQuery : Str
deriving DecidableEq

/-- The search predicate of the filter effect (page.tsx lines 198-204):
`query` is already lower-cased by the caller. -/
def matchesSearch (query : Str) (job : JobPosting) : Bool :=
  strIncludes (toLowerStr job.title) query ||
  strIncludes (toLowerStr job.description) query ||
  strIncludes (toLowerStr job.city) query ||
  strIncludes (toLowerStr (job.first_name ++ ' ' :: job.last_name)) query

/-- The filter pipeline of the filter `useEffect` (page.tsx lines 183-207):
saved-only, then country, then free-text search, each step narrowing the
working list. -/
def applyFilters (f : FilterState) (allJobPostings : List JobPosting) :
    List JobPosting :=
  let filtered := allJobPostings
  let filtered :=
    if f.showOnlySaved then filtered.filter (fun job => job.is_saved)
    else filtered
  let filtered :=
    if !f.selectedCountry.isEmpty then
      filtered.filter (fun job => decide (job.country = f.selectedCountry))
    else filtered
  if !f.searchQuery.isEmpty then
    let query := toLowerStr f.searchQuery
    filtered.filter (matchesSearch query)
  else filtered

/-- The same filter state with the free-text query cleared. -/
def clearSearch (f : FilterState) : FilterState := { f with searchQuery := [] }

theorem strIncludes_iff_infix (haystack needle : Str) :
    strIncludes haystack needle = true ↔ needle <:+: haystack := by
  induction haystack with
  | nil =>
    simp [strIncludes, List.isEmpty_iff]
  | cons h t ih =>
    simp [strIncludes, List.infix_cons_iff, List.isPrefixOf_iff_prefix, ih]

theorem matchesSearch_iff (query : Str) (job : JobPosting) :
    matchesSearch query job = true ↔
      (query <:+: toLowerStr job.title ∨
       query <:+: toLowerStr job.description ∨
       query <:+: toLowerStr job.city ∨
       query <:+: toLowerStr (job.first_name ++ ' ' :: job.last_name)) := by
  simp [matchesSearch, strIncludes_iff_infix, or_assoc]

/-- C1: with a non-empty free-text query, the pipeline keeps exactly the
listings (among those passing the saved/country steps) whose lower-cased
title, description, city, or "first last" name contains the lower-cased
query as a substring. -/
theorem applyFilters_search_characterisation (f : FilterState)
    (allJobPostings : List JobPosting) (job : JobPosting)
    (hq : f.searchQuery ≠ []) :
    job ∈ applyFilters f allJobPostings ↔
      (job ∈ applyFilters (clearSearch f) allJobPostings ∧
        (toLowerStr f.searchQuery <:+: toLowerStr job.title ∨
         toLowerStr f.searchQuery <:+: toLowerStr job.description ∨
         toLowerStr f.searchQuery <:+: toLowerStr job.city ∨
         toLowerStr f.searchQuery <:+:
           toLowerStr (job.first_name ++ ' ' :: job.last_name))) := by
  have hne : f.searchQuery.isEmpty = false := by
    simpa [List.isEmpty_iff] using hq
  simp [applyFilters, clearSearch, hne, List.mem_filter, matchesSearch_iff]

/-- Concrete listing whose only match for the query "logo" is in its
description (title, city and poster name do not contain it). -/
def logoJob : JobPosting :=
  { id := str "j1"
    title := str "Brand refresh"
    description := str "We need a new LOGO for our shop"
    has_deadline := false
    deadline_date := none
    deadline_time := none
    profile_id := str "p1"
    username := str "acme"
    city := str "Sydney"
    country := str "Australia"
    user_id := str "u1"
    first_name := str "Ann"
    last_name := str "Lee"
    user_type := str "business_owner"
    slug := str "brand-refresh-x1y2z3"
    is_saved := false }

/-- Filter state whose only active filter is the query "logo". -/
def logoFilter : FilterState :=
  { showOnlySaved := false, selectedCountry := [], searchQuery := str "logo" }

/-- C1 witness: a listing matching "logo" only in its description is kept. -/
theorem applyFilters_search_characterisation_witness :
    logoJob ∈ applyFilters logoFilter (logoJob :: []) :=
  (applyFilters_search_characterisation logoFilter (logoJob :: []) logoJob
    (by decide)).mpr ⟨by decide, by decide⟩

/-- C8: the pipeline output is a sublist of its input (so every output
element is an input element and none is fabricated), and the empty input
yields the empty output for every filter state. -/
theorem applyFilters_sublist_and_nil (f : FilterState)
    (allJobPostings : List JobPosting) :
    (applyFilters f allJobPostings).Sublist allJobPostings ∧
      applyFilters f [] = [] := by
  constructor
  · unfold applyFilters
    split <;> split <;> split <;>
      first
        | exact List.Sublist.refl _
        | exact List.filter_sublist _
        | exact ((List.filter_sublist _).trans (List.filter_sublist _))
        | exact (((List.filter_sublist _).trans (List.filter_sublist _)).trans
            (List.filter_sublist _))
  · unfold applyFilters
    split <;> split <;> split <;> simp

/-- Deadline-bearing fields of a posting, as read by `isDeadlinePassed`. -/
structure DeadlineFields where
  has_deadline : Bool
  deadline_date : Option Nat
  deadline_time : Option (Nat × Nat)
deriving DecidableEq

/-- Seconds in one day. -/
def secondsPerDay : Nat := 86400

/-- isDeadlinePassed (JobPostingCard.tsx lines 159-173). A date-only value
parses to the date at 00:00:00; `setHours(h, m)` moves it to h:m:00 and
`setHours(23, 59, 59)` to 23:59:59 of that day; the comparison
`today > deadline` is strict. -/
def isDeadlinePassed (job : DeadlineFields) (now : Nat) : Bool :=
  match job.has_deadline, job.deadline_date with
  | false, _ => false
  | true, none => false
  | true, some day =>
    let deadline :=
      match job.deadline_time with
      | some t => day * secondsPerDay + t.1 * 3600 + t.2 * 60
      | none => day * secondsPerDay + 23 * 3600 + 59 * 60 + 59
    decide (now > deadline)

/-- Cutoff instant in the spec's words: the deadline date at the deadline
time when present, and at 23:59:59 when the time is absent. -/
def specCutoff (day : Nat) (time : Option (Nat × Nat)) : Nat :=
  match time with
  | some t => day * secondsPerDay + (t.1 * 3600 + t.2 * 60)
  | none => day * secondsPerDay + (23 * 3600 + 59 * 60 + 59)

/-- C2: the expiry check is false when the deadline flag is off or the date
is absent; otherwise it is true exactly when the current instant is
strictly after the cutoff (deadline time when present, else 23:59:59). -/
theorem isDeadlinePassed_spec (job : DeadlineFields) (now : Nat) :
    ((job.has_deadline = false ∨ job.deadline_date = none) →
      isDeadlinePassed job now = false) ∧
    (∀ day, job.has_deadline = true → job.deadline_date = some day →
      (isDeadlinePassed job now = true ↔
        specCutoff day job.deadline_time < now)) := by
  obtain ⟨hd, dd, dt⟩ := job
  constructor
  · rintro (h | h)
    · subst h
      rfl
    · subst h
      cases hd <;> rfl
  · intro day h1 h2
    subst h1
    subst h2
    cases dt with
    | none =>
      simp only [isDeadlinePassed, specCutoff, decide_eq_true_eq]
    | some t =>
      simp only [isDeadlinePassed, specCutoff, decide_eq_true_eq]
      omega

/-- C2 witness: no deadline flag means never expired; with a dated deadline
and no time, one second past end of day (now = 86400 on day 0) is expired. -/
theorem isDeadlinePassed_spec_witness :
    isDeadlinePassed ⟨false, some 0, none⟩ 86400 = false ∧
    isDeadlinePassed ⟨true, some 0, none⟩ 86400 = true :=
  ⟨(isDeadlinePassed_spec ⟨false, some 0, none⟩ 86400).1 (Or.inl rfl),
   ((isDeadlinePassed_spec ⟨true, some 0, none⟩ 86400).2 0 rfl rfl).mpr
     (by decide)⟩

/-- JS regex `\w` word character: ASCII letter, digit or underscore. -/
def isWordChar (c : Char) : Bool := c.isAlphanum || decide (c = '_')

/-- The replace(/\s+/g, '-') step of generateSlug: each maximal run of
whitespace characters becomes a single hyphen. -/
def collapseWs : Str → Str
  | [] => []
  | c :: [] => if c.isWhitespace then '-' :: [] else c :: []
  | c :: d :: rest =>
    if c.isWhitespace && d.isWhitespace then collapseWs (d :: rest)
    else (if c.isWhitespace then '-' else c) :: collapseWs (d :: rest)

/-- The replace(/[^\w-]+/g, '') step of generateSlug: drop every character
that is neither a word character nor a hyphen. -/
def stripNonWord (t : Str) : Str :=
  t.filter (fun c => isWordChar c || decide (c = '-'))

/-- The deterministic part of generateSlug (page.tsx lines 213-216). -/
def slugBase (title : Str) : Str := stripNonWord (collapseWs (toLowerStr title))

/-- The suffix `Math.random().toString(36).substring(2, 8)`: the string
form of the random number with the leading "0." dropped, truncated to at
most six characters. -/
def randSuffix (randStr : Str) : Str := (randStr.drop 2).take 6

/-- generateSlug (page.tsx lines 211-221); `randStr` is the string
`Math.random().toString(36)` produced. -/
def generateSlug (title randStr : Str) : Str :=
  slugBase title ++ '-' :: randSuffix randStr

theorem toNat_ofNat_valid (n : Nat) (h : n.isValidChar) :
    (Char.ofNat n).toNat = n := by
  rw [Char.ofNat, dif_pos h]
  cases h with
  | inl h1 => rfl
  | inr h1 => rfl

theorem toLower_eq_of_upper {a : Char} (h : a.toNat ≥ 65 ∧ a.toNat ≤ 90) :
    Char.toLower a = Char.ofNat (a.toNat + 32) := by
  show (if a.toNat ≥ 65 ∧ a.toNat ≤ 90 then Char.ofNat (a.toNat + 32) else a) = _
  rw [if_pos h]

theorem toLower_eq_of_not_upper {a : Char} (h : ¬(a.toNat ≥ 65 ∧ a.toNat ≤ 90)) :
    Char.toLower a = a := by
  show (if a.toNat ≥ 65 ∧ a.toNat ≤ 90 then Char.ofNat (a.toNat + 32) else a) = _
  rw [if_neg h]

theorem toLower_idem (a : Char) :
    Char.toLower (Char.toLower a) = Char.toLower a := by
  by_cases h : a.toNat ≥ 65 ∧ a.toNat ≤ 90
  · have hv : (a.toNat + 32).isValidChar := Or.inl (by omega)
    have h2 : (Char.ofNat (a.toNat + 32)).toNat = a.toNat + 32 :=
      toNat_ofNat_valid _ hv
    rw [toLower_eq_of_upper h]
    exact toLower_eq_of_not_upper (by rw [h2]; omega)
  · rw [toLower_eq_of_not_upper h, toLower_eq_of_not_upper h]

theorem mem_collapseWs : ∀ (t : Str), ∀ c ∈ collapseWs t, c ∈ t ∨ c = '-'
  | [] => by simp [collapseWs]
  | d :: [] => by
    by_cases hd : d.isWhitespace <;> simp [collapseWs, hd]
  | a :: b :: rest => by
    intro c hc
    have ih := mem_collapseWs (b :: rest)
    by_cases h1 : a.isWhitespace && b.isWhitespace
    · rw [collapseWs, if_pos h1] at hc
      rcases ih c hc with h | h
      · exact Or.inl (List.mem_cons_of_mem a h)
      · exact Or.inr h
    · rw [collapseWs, if_neg h1] at hc
      rcases List.mem_cons.mp hc with h | h

      · by_cases h2 : a.isWhitespace
        · rw [if_pos h2] at h
          exact Or.inr h
        · rw [if_neg h2] at h
          exact Or.inl (h ▸ List.mem_cons_self a (b :: rest))
      · rcases ih c h with h3 | h3
        · exact Or.inl (List.mem_cons_of_mem a h3)
        · exact Or.inr h3

theorem mem_slugBase {title : Str} {c : Char} (hc : c ∈ slugBase title) :
    Char.toLower c = c := by
  unfold slugBase stripNonWord at hc
  have hmem := (List.mem_filter.mp hc).1
  rcases mem_collapseWs _ c hmem with h | h
  · rcases List.mem_map.mp h with ⟨a, _, ha⟩
    rw [← ha]
    exact toLower_idem a
  · subst h
    decide

/-- C5 counterexample: `Math.random()` can return 0.5, whose base-36 string
form is "0.i", so `substring(2, 8)` yields the one-character suffix "i":
the random suffix is not always at least six characters long. -/
theorem generateSlug_suffix_can_be_short :
    ¬ 6 ≤ (randSuffix (str "0.i")).length := by decide

/-- C5 (amended): generateSlug is the lower-cased, whitespace-run-to-hyphen,
special-character-stripped base, then a hyphen, then the random suffix; the
base for "Need a Logo!!" is "need-a-logo"; every base character is a word
character or hyphen and is fixed by lower-casing; and the random suffix has
AT MOST six base-36 characters (not at least six as claimed). -/
theorem generateSlug_spec :
    slugBase (str "Need a Logo!!") = str "need-a-logo" ∧
    (∀ title randStr : Str,
      generateSlug title randStr = slugBase title ++ '-' :: randSuffix randStr) ∧
    (∀ randStr : Str, (randSuffix randStr).length ≤ 6) ∧
    (∀ title : Str, ∀ c ∈ slugBase title,
      (isWordChar c || decide (c = '-')) = true ∧ Char.toLower c = c) := by
  refine ⟨by decide, fun _ _ => rfl, fun randStr => ?_, fun title c hc => ?_⟩
  · exact List.length_take_le 6 _
  · refine ⟨?_, mem_slugBase hc⟩
    have := (List.mem_filter.mp hc).2
    simpa using this

/-- C5 witness: the character 'n' of the base of "Need a Logo!!" is a word
character fixed by lower-casing. -/
theorem generateSlug_spec_witness :
    (isWordChar 'n' || decide ('n' = '-')) = true ∧ Char.toLower 'n' = 'n' :=
  generateSlug_spec.2.2.2 (str "Need a Logo!!") 'n' (by decide)

/-- The filter state with no active filters. -/
def noFilters : FilterState :=
  { showOnlySaved := false, selectedCountry := [], searchQuery := [] }

/-- C9: with no active filters the pipeline returns the listing set
unchanged, element for element and in order. -/
theorem applyFilters_noFilters_id (allJobPostings : List JobPosting) :
    applyFilters noFilters allJobPostings = allJobPostings := rfl

/-- The viewer's profile row as used by the findwork page and the card. -/
structure Profile where
  id : Str
  user_id : Str
  username : Str
  city : Str
  country : Str
  first_name : Str
  last_name : Str
  user_type : Str
deriving DecidableEq

/-- One remote gateway mutation as issued through the supabase client by
the four handlers. -/
inductive GatewayCall where
  | savedJobsInsert (profileId jobPostingId : Str)
  | savedJobsDelete (profileId jobPostingId : Str)
  | jobPostingsInsert (profileId : Str) (title description slug : Str)
  | jobPostingsDelete (id : Str)
  | jobApplicationsInsert (profileId jobPostingId : Str)
deriving DecidableEq

/-- Outcome of a remote mutation as seen by the caller. -/
inductive RemoteResult where
  | ok
  | fail
deriving DecidableEq

/-- How a handler surfaces an outcome: silently, through a user-facing
alert, or only on the developer console. -/
inductive Report where
  | silent
  | alertUser
  | consoleOnly
deriving DecidableEq

/-- Whether a report is visible to the user (an alert is, a console log
is not). -/
def reportIsUserVisible : Report → Bool
  | .alertUser => true
  | _ => false

/-- The findwork page's in-memory listing state: the full set, the
filtered set, the saved-job-id set and the filter inputs. -/
structure PageState where
  allJobPostings : List JobPosting
  filteredJobPostings : List JobPosting
  savedJobIds : List Str
  filterState : FilterState
deriving DecidableEq

/-- The update `job.id === jobId ? { ...job, is_saved: flag } : job`. -/
def setSavedFlag (jobId : Str) (flag : Bool) (job : JobPosting) : JobPosting :=
  if job.id = jobId then { job with is_saved := flag } else job

/-- handleSaveJob (page.tsx lines 332-399). The remote outcome is passed
in; on failure the catch block alerts and no state is touched (every state
update sits after the `if (error) throw error` check). -/
def handleSaveJob (userProfile : Option Profile) (s : PageState)
    (jobId : Str) (isSaved : Bool) (remote : RemoteResult) :
    PageState × List GatewayCall × Report :=
  match userProfile with
  | none => (s, [], .silent)
  | some p =>
    if isSaved then
      match remote with
      | .fail => (s, [.savedJobsDelete p.id jobId], .alertUser)
      | .ok =>
        ({ s with
            savedJobIds := s.savedJobIds.filter (fun i => !decide (i = jobId))
            allJobPostings := s.allJobPostings.map (setSavedFlag jobId false)
            filteredJobPostings :=
              if s.filterState.showOnlySaved then
                s.filteredJobPostings.filter (fun job => !decide (job.id = jobId))
              else
                s.filteredJobPostings.map (setSavedFlag jobId false) },
          [.savedJobsDelete p.id jobId], .silent)
    else
      match remote with
      | .fail => (s, [.savedJobsInsert p.id jobId], .alertUser)
      | .ok =>
        ({ s with
            savedJobIds :=
              if jobId ∈ s.savedJobIds then s.savedJobIds
              else jobId :: s.savedJobIds
            allJobPostings := s.allJobPostings.map (setSavedFlag jobId true)
            filteredJobPostings :=
              s.filteredJobPostings.map (setSavedFlag jobId true) },
          [.savedJobsInsert p.id jobId], .silent)

/-- handleDeleteJobPosting (page.tsx lines 311-330). -/
def handleDeleteJobPosting (s : PageState) (id : Str)
    (remote : RemoteResult) : PageState × List GatewayCall × Report :=
  match remote with
  | .fail => (s, [.jobPostingsDelete id], .alertUser)
  | .ok =>
    ({ s with
        allJobPostings :=
          s.allJobPostings.filter (fun job => !decide (job.id = id))
        filteredJobPostings :=
          s.filteredJobPostings.filter (fun job => !decide (job.id = id)) },
      [.jobPostingsDelete id], .silent)

/-- The form fields collected by JobPostingModal. -/
structure JobFormData where
  title : Str
  description : Str
  has_deadline : Bool
  deadline_date : Option Nat
  deadline_time : Option (Nat × Nat)
deriving DecidableEq

/-- The search predicate of the inline re-filter inside
handleCreateJobPosting (page.tsx lines 293-300): unlike the filter effect
it checks only title and description. -/
def matchesSearchInline (query : Str) (job : JobPosting) : Bool :=
  strIncludes (toLowerStr job.title) query ||
  strIncludes (toLowerStr job.description) query

/-- The inline filter re-application in handleCreateJobPosting
(page.tsx lines 286-301). -/
def applyFiltersInline (f : FilterState) (allJobPostings : List JobPosting) :
    List JobPosting :=
  let filtered := allJobPostings
  let filtered :=
    if f.showOnlySaved then filtered.filter (fun job => job.is_saved)
    else filtered
  let filtered :=
    if !f.selectedCountry.isEmpty then
      filtered.filter (fun job => decide (job.country = f.selectedCountry))
    else filtered
  if !f.searchQuery.isEmpty then
    let query := toLowerStr f.searchQuery
    filtered.filter (matchesSearchInline query)
  else filtered

/-- handleCreateJobPosting (page.tsx lines 223-309): guard on session and
profile, insert, then prepend the new posting and re-apply the inline
filters. `newId` stands for the id of the row the gateway returns. -/
def handleCreateJobPosting (hasSession : Bool) (userProfile : Option Profile)
    (s : PageState) (form : JobFormData) (randStr newId : Str)
    (remote : RemoteResult) : PageState × List GatewayCall × Report :=
  if !hasSession then (s, [], .silent)
  else
    match userProfile with
    | none => (s, [], .silent)
    | some p =>
      let slug := generateSlug form.title randStr
      let call :=
        GatewayCall.jobPostingsInsert p.id form.title form.description slug
      match remote with
      | .fail => (s, [call], .alertUser)
      | .ok =>
        let newJobPosting : JobPosting :=
          { id := newId
            title := form.title
            description := form.description
            has_deadline := form.has_deadline
            deadline_date := form.deadline_date
            deadline_time := form.deadline_time
            profile_id := p.id
            username := p.username
            city := p.city
            country := p.country
            user_id := p.user_id
            first_name := p.first_name
            last_name := p.last_name
            user_type := p.user_type
            slug := slug
            is_saved := false }
        let updated := newJobPosting :: s.allJobPostings
        ({ s with
            allJobPostings := updated
            filteredJobPostings := applyFiltersInline s.filterState updated },
          [call], .silent)

/-- handleApplyJob (JobPostingCard.tsx lines 106-125): guard on session and
profile, insert an application row; on failure the catch block only logs to
the console and `isApplied` stays false. -/
def handleApplyJob (hasSession : Bool) (userProfile : Option Profile)
    (jobId : Str) (isApplied : Bool) (remote : RemoteResult) :
    Bool × List GatewayCall × Report :=
  if !hasSession then (isApplied, [], .silent)
  else
    match userProfile with
    | none => (isApplied, [], .silent)
    | some p =>
      match remote with
      | .fail => (isApplied, [.jobApplicationsInsert p.id jobId], .consoleOnly)
      | .ok => (true, [.jobApplicationsInsert p.id jobId], .silent)

/-- canInteract (JobPostingCard.tsx line 189): the viewer is a content
creator and not the posting's owner. -/
def canInteract (userProfile : Option Profile) (isOwner : Bool) : Bool :=
  (match userProfile with
   | some p => decide (p.user_type = str "content_creator")
   | none => false) && !isOwner

/-- The save toggle as reachable through the UI: JobPostingCard renders the
save button only under canInteract (line 224); a click runs the page's
handleSaveJob. Without the button the operation is a no-op. -/
def saveToggleOp (userProfile : Option Profile) (isOwner : Bool)
    (s : PageState) (jobId : Str) (isSaved : Bool) (remote : RemoteResult) :
    PageState × List GatewayCall × Report :=
  if canInteract userProfile isOwner then
    handleSaveJob userProfile s jobId isSaved remote
  else (s, [], .silent)

/-- The apply action as reachable through the UI: the card shows Apply Now
only under canInteract, with the deadline not passed and not yet applied
(lines 337-358); a click runs handleApplyJob. -/
def applyOp (hasSession : Bool) (userProfile : Option Profile)
    (isOwner : Bool) (job : DeadlineFields) (now : Nat) (jobId : Str)
    (isApplied : Bool) (remote : RemoteResult) :
    Bool × List GatewayCall × Report :=
  if canInteract userProfile isOwner && !isDeadlinePassed job now
      && !isApplied then
    handleApplyJob hasSession userProfile jobId isApplied remote
  else (isApplied, [], .silent)

/-- C3: unsaving a saved listing after remote confirmation clears its
is_saved flag throughout the full set; with saved-only filtering active the
listing is removed from the filtered set, and otherwise the filtered set is
the flag-update image of the old one, in which the unsaved listing remains
with is_saved false. -/
theorem handleSaveJob_unsave_spec (p : Profile) (s : PageState)
    (jobId : Str) :
    (∀ job ∈ (handleSaveJob (some p) s jobId true .ok).1.allJobPostings,
      job.id = jobId → job.is_saved = false) ∧
    (s.filterState.showOnlySaved = true →
      ∀ job ∈ (handleSaveJob (some p) s jobId true .ok).1.filteredJobPostings,
        job.id ≠ jobId) ∧
    (s.filterState.showOnlySaved = false →
      (handleSaveJob (some p) s jobId true .ok).1.filteredJobPostings =
        s.filteredJobPostings.map (setSavedFlag jobId false) ∧
      ∀ job ∈ s.filteredJobPostings, job.id = jobId →
        setSavedFlag jobId false job ∈
          (handleSaveJob (some p) s jobId true .ok).1.filteredJobPostings ∧
        (setSavedFlag jobId false job).is_saved = false) := by
  refine ⟨?_, ?_, ?_⟩
  · intro job hmem hid
    simp only [handleSaveJob] at hmem
    rcases List.mem_map.mp hmem with ⟨a, _, rfl⟩
    unfold setSavedFlag at hid ⊢
    by_cases h : a.id = jobId
    · simp [h]
    · rw [if_neg h] at hid
      exact absurd hid h
  · intro hss job hmem
    simp only [handleSaveJob, hss, if_true] at hmem
    have := (List.mem_filter.mp hmem).2
    simpa using this
  · intro hss
    constructor
    · simp [handleSaveJob, hss]
    · intro job hmem hid
      refine ⟨?_, ?_⟩
      · simp only [handleSaveJob, hss, Bool.false_eq_true, if_false]
        exact List.mem_map.mpr ⟨job, hmem, rfl⟩
      · unfold setSavedFlag
        rw [if_pos hid]

/-- A saved listing used by concrete states. -/
def savedJob : JobPosting := { logoJob with id := str "j2", is_saved := true }

/-- A content-creator viewer profile. -/
def viewerProfile : Profile :=
  { id := str "p9"
    user_id := str "u9"
    username := str "creator9"
    city := str "Perth"
    country := str "Australia"
    first_name := str "Cam"
    last_name := str "Doe"
    user_type := str "content_creator" }

/-- A business-owner viewer profile. -/
def ownerProfile : Profile :=
  { viewerProfile with
    id := str "p1", user_id := str "u1", user_type := str "business_owner" }

/-- Page state filtered to saved listings only, showing one saved listing. -/
def savedOnlyState : PageState :=
  { allJobPostings := savedJob :: []
    filteredJobPostings := savedJob :: []
    savedJobIds := str "j2" :: []
    filterState :=
      { showOnlySaved := true, selectedCountry := [], searchQuery := [] } }

/-- C3 witness: unsaving the one saved listing while the saved-only filter
is active leaves no listing with its id in the filtered set. -/
theorem handleSaveJob_unsave_spec_witness :
    ((handleSaveJob (some viewerProfile) savedOnlyState (str "j2") true
        .ok).1.filteredJobPostings.all
      (fun job => decide (job.id ≠ str "j2"))) = true := by
  have H := (handleSaveJob_unsave_spec viewerProfile savedOnlyState
    (str "j2")).2.1 rfl
  exact List.all_eq_true.mpr (fun job hj => decide_eq_true (H job hj))

/-- C6: when the viewer is not a content creator or owns the posting,
neither the save toggle nor the apply action issues any gateway call and
all state is left unchanged; the apply action is likewise a no-op once the
deadline has passed. -/
theorem no_call_when_guard_violated (hasSession : Bool)
    (userProfile : Option Profile) (isOwner : Bool) (s : PageState)
    (job : DeadlineFields) (now : Nat) (jobId : Str)
    (isSaved isApplied : Bool) (remote : RemoteResult) :
    ((∀ p, userProfile = some p → p.user_type ≠ str "content_creator") ∨
        isOwner = true →
      saveToggleOp userProfile isOwner s jobId isSaved remote =
        (s, [], .silent) ∧
      applyOp hasSession userProfile isOwner job now jobId isApplied remote =
        (isApplied, [], .silent)) ∧
    (isDeadlinePassed job now = true →
      applyOp hasSession userProfile isOwner job now jobId isApplied remote =
        (isApplied, [], .silent)) := by
  constructor
  · intro hg
    have hci : canInteract userProfile isOwner = false := by
      rcases hg with hg | hg
      · cases userProfile with
        | none => rfl
        | some p => simp [canInteract, hg p rfl]
      · simp [canInteract, hg]
    exact ⟨by simp [saveToggleOp, hci], by simp [applyOp, hci]⟩
  · intro hd
    simp [applyOp, hd]

/-- C6 witness: a business-owner viewer gets no gateway call and no state
change from either operation, and a passed deadline blocks apply even for
an eligible creator. -/
theorem no_call_when_guard_violated_witness :
    (saveToggleOp (some ownerProfile) false savedOnlyState (str "j2") true
        .ok = (savedOnlyState, [], .silent) ∧
      applyOp true (some ownerProfile) false ⟨false, none, none⟩ 0 (str "j2")
        false .ok = (false, [], .silent)) ∧
    applyOp true (some viewerProfile) false ⟨true, some 0, none⟩ 86400
      (str "j2") false .ok = (false, [], .silent) :=
  ⟨(no_call_when_guard_violated true (some ownerProfile) false savedOnlyState
      ⟨false, none, none⟩ 0 (str "j2") true false .ok).1
      (Or.inl (fun p hp => by cases hp; decide)),
   (no_call_when_guard_violated true (some viewerProfile) false
      savedOnlyState ⟨true, some 0, none⟩ 86400
      (str "j2") true false .ok).2 (by decide)⟩

/-- A concrete job form. -/
def testForm : JobFormData :=
  { title := str "New role"
    description := str "desc"
    has_deadline := false
    deadline_date := none
    deadline_time := none }

/-- C7 counterexample: a failing apply issues its gateway call but surfaces
the failure only on the developer console (JobPostingCard.tsx line 121),
so the failure is not reported to the user. -/
theorem apply_failure_only_logged :
    (handleApplyJob true (some viewerProfile) (str "j2") false .fail).2.1 ≠ [] ∧
    reportIsUserVisible
      (handleApplyJob true (some viewerProfile) (str "j2") false
        .fail).2.2 = false := by decide

/-- C7 (amended): on remote failure every one of the four mutations leaves
the in-memory state exactly as it was and issues at most one gateway call
(no automatic retry); create, delete and save/unsave report the failure
through a user-facing alert, while apply only logs it to the console. -/
theorem mutation_failure_preserves_state (hasSession : Bool)
    (userProfile : Option Profile) (s : PageState) (form : JobFormData)
    (randStr newId jobId : Str) (isSaved isApplied : Bool) :
    ((handleCreateJobPosting hasSession userProfile s form randStr newId
        .fail).1 = s ∧
      (handleCreateJobPosting hasSession userProfile s form randStr newId
        .fail).2.1.length ≤ 1 ∧
      ((handleCreateJobPosting hasSession userProfile s form randStr newId
          .fail).2.1 ≠ [] →
        (handleCreateJobPosting hasSession userProfile s form randStr newId
          .fail).2.2 = .alertUser)) ∧
    ((handleDeleteJobPosting s jobId .fail).1 = s ∧
      (handleDeleteJobPosting s jobId .fail).2.1.length ≤ 1 ∧
      ((handleDeleteJobPosting s jobId .fail).2.1 ≠ [] →
        (handleDeleteJobPosting s jobId .fail).2.2 = .alertUser)) ∧
    ((handleSaveJob userProfile s jobId isSaved .fail).1 = s ∧
      (handleSaveJob userProfile s jobId isSaved .fail).2.1.length ≤ 1 ∧
      ((handleSaveJob userProfile s jobId isSaved .fail).2.1 ≠ [] →
        (handleSaveJob userProfile s jobId isSaved .fail).2.2 =
          .alertUser)) ∧
    ((handleApplyJob hasSession userProfile jobId isApplied .fail).1 =
        isApplied ∧
      (handleApplyJob hasSession userProfile jobId isApplied
        .fail).2.1.length ≤ 1 ∧
      ((handleApplyJob hasSession userProfile jobId isApplied .fail).2.1 ≠
          [] →
        (handleApplyJob hasSession userProfile jobId isApplied .fail).2.2 =
          .consoleOnly)) := by
  cases hasSession <;> cases userProfile <;> cases isSaved <;>
    simp [handleCreateJobPosting, handleDeleteJobPosting, handleSaveJob,
      handleApplyJob]

/-- C7 witness: a failing unsave leaves the concrete page state untouched,
and a failing apply reports only to the console. -/
theorem mutation_failure_preserves_state_witness :
    (handleSaveJob (some viewerProfile) savedOnlyState (str "j2") true
        .fail).1 = savedOnlyState ∧
    (handleApplyJob true (some viewerProfile) (str "j2") false .fail).2.2 =
      .consoleOnly := by
  have H := mutation_failure_preserves_state true (some viewerProfile)
    savedOnlyState testForm (str "0.k3j9x2") (str "j9") (str "j2") true false
  exact ⟨H.2.2.1.1, H.2.2.2.2.2 (by decide)⟩

/-- A listing whose only occurrence of "paris" is in its city field. -/
def parisJob : JobPosting := { logoJob with id := str "j3", city := str "Paris" }

/-- Filter state whose only active filter is the query "paris". -/
def parisFilter : FilterState :=
  { showOnlySaved := false, selectedCountry := [], searchQuery := str "paris" }

/-- C10 counterexample: on a listing whose only match is in its city, the
inline re-filter of handleCreateJobPosting (title and description only)
drops the listing while the main pipeline keeps it, so the two are not the
same function. -/
theorem inline_refilter_differs :
    applyFiltersInline parisFilter (parisJob :: []) ≠
      applyFilters parisFilter (parisJob :: []) := by decide

/-- C10 (amended): the inline re-filter inside handleCreateJobPosting
agrees with the main pipeline whenever the free-text query is empty, and in
general its output is a sublist of the main pipeline's (its search branch
checks only title and description, whose match implies the main branch's
title/description/city/name match); with a non-empty query the two can
differ. -/
theorem inline_refilter_spec :
    (∀ (f : FilterState) (allJobPostings : List JobPosting),
      f.searchQuery = [] →
        applyFiltersInline f allJobPostings = applyFilters f allJobPostings) ∧
    (∀ (f : FilterState) (allJobPostings : List JobPosting),
      (applyFiltersInline f allJobPostings).Sublist
        (applyFilters f allJobPostings)) ∧
    (∀ (query : Str) (job : JobPosting),
      matchesSearchInline query job = true → matchesSearch query job = true) := by
  have hmono : ∀ (query : Str) (job : JobPosting),
      matchesSearchInline query job = true → matchesSearch query job = true := by
    intro query job h
    simp only [matchesSearchInline, Bool.or_eq_true] at h
    simp only [matchesSearch, Bool.or_eq_true]
    tauto
  refine ⟨?_, ?_, hmono⟩
  · intro f allJobPostings hq
    simp [applyFiltersInline, applyFilters, hq]
  · intro f allJobPostings
    unfold applyFiltersInline applyFilters
    by_cases hq : f.searchQuery.isEmpty
    · simp only [hq, Bool.not_true, Bool.false_eq_true, if_false]
      exact List.Sublist.refl _
    · have hq2 : f.searchQuery.isEmpty = false := by
        simpa using hq
      simp only [hq2, Bool.not_false, if_true]
      exact List.monotone_filter_right _ (fun job h => hmono _ job h)

/-- C10 witness: with no query active the inline re-filter and the main
pipeline agree on a concrete listing set. -/
theorem inline_refilter_spec_witness :
    applyFiltersInline noFilters (logoJob :: []) =
      applyFilters noFilters (logoJob :: []) :=
  inline_refilter_spec.1 noFilters (logoJob :: []) rfl

/-- Filter state of the refactored findwork page that feeds FilterSection
(components/findwork/FilterSection.tsx props): the saved-only and the
my-postings-only toggles together with the query and country inputs. -/
structure MFilterState where
  searchQuery : Str
  selectedCountry : Str
  showOnlySaved : Bool
  showMyPostingsOnly : Bool
deriving DecidableEq

/-- The initial filter state: nothing active. -/
def initialMFilter : MFilterState :=
  { searchQuery := []
    selectedCountry := []
    showOnlySaved := false
    showMyPostingsOnly := false }

/-- Modelled from the spec: the page component owning `showOnlySaved` and
`showMyPostingsOnly` and passing `toggleSavedFilter` to FilterSection is
not among the source files (FilterSection and JobPostingsList only declare
the props). Per the spec, activating the saved filter deactivates the
my-postings filter. -/
def toggleSavedFilterM (s : MFilterState) : MFilterState :=
  { s with showOnlySaved := !s.showOnlySaved, showMyPostingsOnly := false }

/-- Modelled from the spec: activating the my-postings filter deactivates
the saved filter (same missing page component as `toggleSavedFilterM`). -/
def toggleMyPostingsFilterM (s : MFilterState) : MFilterState :=
  { s with showMyPostingsOnly := !s.showMyPostingsOnly, showOnlySaved := false }

/-- Modelled from the spec: clearing filters resets every filter input. -/
def clearFiltersM (_s : MFilterState) : MFilterState := initialMFilter

/-- Typing in the search box only changes the query. -/
def setSearchQueryM (q : Str) (s : MFilterState) : MFilterState :=
  { s with searchQuery := q }

/-- Picking a country only changes the country selection. -/
def setSelectedCountryM (c : Str) (s : MFilterState) : MFilterState :=
  { s with selectedCountry := c }

/-- Filter states reachable from the initial state through the UI events
FilterSection exposes. -/
inductive MReachable : MFilterState → Prop
  | init : MReachable initialMFilter
  | toggleSaved {s : MFilterState} :
      MReachable s → MReachable (toggleSavedFilterM s)
  | toggleMine {s : MFilterState} :
      MReachable s → MReachable (toggleMyPostingsFilterM s)
  | clear {s : MFilterState} :
      MReachable s → MReachable (clearFiltersM s)
  | search {s : MFilterState} (q : Str) :
      MReachable s → MReachable (setSearchQueryM q s)
  | country {s : MFilterState} (c : Str) :
      MReachable s → MReachable (setSelectedCountryM c s)

/-- C4: in every reachable filter state the saved-only and my-postings-only
toggles are never both active, and activating either toggle deactivates the
other. -/
theorem savedOnly_mineOnly_mutually_exclusive :
    (∀ s : MFilterState, MReachable s →
      ¬(s.showOnlySaved = true ∧ s.showMyPostingsOnly = true)) ∧
    (∀ s : MFilterState,
      (toggleSavedFilterM s).showMyPostingsOnly = false ∧
      (toggleMyPostingsFilterM s).showOnlySaved = false) := by
  constructor
  · intro s hs
    induction hs with
    | init => simp [initialMFilter]
    | toggleSaved _ ih => simp [toggleSavedFilterM]
    | toggleMine _ ih => simp [toggleMyPostingsFilterM]
    | clear _ ih => simp [clearFiltersM, initialMFilter]
    | search q _ ih => simpa [setSearchQueryM] using ih
    | country c _ ih => simpa [setSelectedCountryM] using ih
  · intro s
    exact ⟨rfl, rfl⟩

/-- C4 witness: after activating the saved filter and then the my-postings
filter from the initial state, the toggles are still not both active. -/
theorem savedOnly_mineOnly_mutually_exclusive_witness :
    ¬((toggleMyPostingsFilterM (toggleSavedFilterM
          initialMFilter)).showOnlySaved = true ∧
      (toggleMyPostingsFilterM (toggleSavedFilterM
          initialMFilter)).showMyPostingsOnly = true) :=
  savedOnly_mineOnly_mutually_exclusive.1 _
    (MReachable.toggleMine (MReachable.toggleSaved MReachable.init))
